import Mathlib

/-!
Verification development for the meal-prep-agent scraping and nutrition-cache
subsystem (`src/meal_prep_agent/nutrition_cache.py`, `tesco_real.py`,
`tesco_simple.py`, `tesco_working.py`).

Python strings are modelled as `List Char` (`Str`), Python dicts with string
keys as association lists, and effectful pieces (HTTP responses, DOM parsing
by BeautifulSoup, Python's process-seeded `hash`) as explicit parameters.
Filesystem writes (`_save_cache`, CSV export, debug dumps) and wall clock
timestamps are outside the model: the timestamp written by `set_nutrition`
is passed in as an explicit `now` argument, and persistence side effects are
dropped since they do not feed back into any of the modelled control flow.
-/

/-- Python strings, modelled as lists of characters. -/
abbrev Str := List Char

/-- Converts a Lean string literal to the `Str` model. -/
def strL (s : String) : Str := s.data

/-- Python whitespace class (`str.split()` / `str.strip()` / regex `\s`),
restricted to the ASCII whitespace characters that can occur in the inputs
this development evaluates. -/
def isPySpace (c : Char) : Bool :=
  c = ' ' || c = '\t' || c = '\n' || c = '\r' || c = Char.ofNat 11 || c = Char.ofNat 12

/-- Python `sub in s` substring containment. -/
def strContains (s sub : Str) : Bool :=
  match s with
  | [] => sub.isEmpty
  | _ :: rest => List.isPrefixOf sub s || strContains rest sub

/-- Python `s.lower()`. -/
def toLowerStr (s : Str) : Str := s.map Char.toLower

/-- Python `s.strip()`: drop leading and trailing whitespace. -/
def stripStr (s : Str) : Str :=
  ((s.dropWhile isPySpace).reverse.dropWhile isPySpace).reverse

/-- First whitespace-delimited token of a Python string, i.e. `s.split()[0]`
when `s.split()` is non-empty (`none` when `s.split()` is empty).  Only the
head of `split()` and its emptiness are used by the source. -/
def firstWord (s : Str) : Option Str :=
  let t := s.dropWhile isPySpace
  if t.isEmpty then none else some (t.takeWhile (fun c => !isPySpace c))

/-- Helper for `pySplit`: scans the haystack left to right, cutting at each
non-overlapping occurrence of `sep` (Python `str.split(sep)` semantics).
`fuel` bounds the recursion; `fuel = haystack.length` always suffices because
every step consumes at least one character of the haystack. -/
def pySplitAux (sep : Str) : Nat → Str → Str → List Str
  | _, [], acc => [acc.reverse]
  | 0, s, acc => [acc.reverse ++ s]
  | fuel + 1, c :: rest, acc =>
    if List.isPrefixOf sep (c :: rest) then
      acc.reverse :: pySplitAux sep fuel (List.drop sep.length (c :: rest)) []
    else
      pySplitAux sep fuel rest (c :: acc)

/-- Python `s.split(sep)` for a non-empty separator. -/
def pySplit (s sep : Str) : List Str :=
  pySplitAux sep s.length s []

/-- Decimal rendering of a natural number (Python `str(i)` / f-string
interpolation of a non-negative integer). -/
def natToStr (n : Nat) : Str := Nat.toDigits 10 n

/-- A nutrition-facts mapping (`Dict[str, str]` in the source), modelled as an
association list; the empty list is Python's empty dict `\x7b\x7d`. -/
abbrev Nutrition := List (Str × Str)

/-- One value of `cache_data["products"]` in `nutrition_cache.py`: the entry
stored per product key by `NutritionCache.set_nutrition`. -/
structure CacheEntry where
  product_name : Str
  product_url : Str
  nutrition : Nutrition
  cached_at : Str
  cache_hits : Nat
deriving Repr, DecidableEq

/-- The `cache_data["products"]` dict: product key → entry.  Modelled as an
association list in insertion order (Python dicts preserve insertion order;
updating an existing key keeps its position). -/
abbrev Cache := List (Str × CacheEntry)

/-- Dict lookup on the products mapping. -/
def lookupKey : Cache → Str → Option CacheEntry
  | [], _ => none
  | (k, e) :: rest, key => if k = key then some e else lookupKey rest key

/-- Dict assignment `products[key] = entry`: replaces an existing key in
place, otherwise appends. -/
def insertKey : Cache → Str → CacheEntry → Cache
  | [], key, e => [(key, e)]
  | (k, e0) :: rest, key, e =>
    if k = key then (k, e) :: rest else (k, e0) :: insertKey rest key e

/-- In-place update `products[key]["cache_hits"] += 1` on an existing key. -/
def bumpHits : Cache → Str → Cache
  | [], _ => []
  | (k, e) :: rest, key =>
    if k = key then (k, { e with cache_hits := e.cache_hits + 1 }) :: rest
    else (k, e) :: bumpHits rest key

namespace NutritionCache

/-- The `/products/` separator used by key derivation. -/
def productsSep : Str := strL "/products/"

/-- `NutritionCache._get_product_key`: if `'/products/' in product_url`,
return `product_url.split('/products/')[-1]`, else the full URL.  `pySplit`
never returns an empty list, so the `getLastD` default is never used. -/
def get_product_key (product_url : Str) : Str :=
  if strContains product_url productsSep then
    (pySplit product_url productsSep).getLastD product_url
  else product_url

/-- `NutritionCache.get_nutrition`: returns the cached `nutrition` mapping on
a key hit (`set_nutrition` always stores the `nutrition` field, so the Python
`cached_product.get("nutrition", \x7b\x7d)` default never fires), `None` on a
miss.  The `product_name` argument is only used for logging and is omitted. -/
def get_nutrition (c : Cache) (product_url : Str) : Option Nutrition :=
  match lookupKey c (get_product_key product_url) with
  | some e => some e.nutrition
  | none => none

/-- `NutritionCache.set_nutrition`: upserts the entry under the derived key,
preserving the prior `cache_hits` (defaulting to 0 for a fresh key), and
stores the caller-visible timestamp `now` (`datetime.now().isoformat()`).
The trailing `_save_cache()` file write is a side effect outside the model. -/
def set_nutrition (c : Cache) (product_url product_name : Str)
    (nutrition_data : Nutrition) (now : Str) : Cache :=
  let key := get_product_key product_url
  let prior_hits := match lookupKey c key with
    | some e => e.cache_hits
    | none => 0
  insertKey c key
    { product_name := product_name
      product_url := product_url
      nutrition := nutrition_data
      cached_at := now
      cache_hits := prior_hits }

/-- `NutritionCache.increment_hit_count`: `cache_hits += 1` when the derived
key is present, no-op otherwise. -/
def increment_hit_count (c : Cache) (product_url : Str) : Cache :=
  let key := get_product_key product_url
  match lookupKey c key with
  | some _ => bumpHits c key
  | none => c

/-- The fields of `NutritionCache.get_cache_stats` that are functions of the
in-memory store.  `cache_file_size_kb` (a filesystem `stat`) and
`last_updated` (a wall-clock timestamp) are outside the model. -/
structure CacheStats where
  total_cached_products : Nat
  total_cache_hits : Nat
  most_popular_products : List (Str × Nat)
deriving Repr, DecidableEq

/-- Insertion sort, descending by hit count, stable for equal counts —
the behaviour of Python's stable `sorted(..., reverse=True)` on this key. -/
def insertByHits (x : Str × CacheEntry) : List (Str × CacheEntry) → List (Str × CacheEntry)
  | [] => [x]
  | y :: ys =>
    if y.2.cache_hits < x.2.cache_hits then x :: y :: ys
    else y :: insertByHits x ys

/-- Stable descending sort by `cache_hits`. -/
def sortByHits : List (Str × CacheEntry) → List (Str × CacheEntry)
  | [] => []
  | x :: xs => insertByHits x (sortByHits xs)

/-- `NutritionCache.get_cache_stats` (the modelled fields). -/
def get_cache_stats (c : Cache) : CacheStats :=
  { total_cached_products := c.length
    total_cache_hits := (c.map (fun kv => kv.2.cache_hits)).sum
    most_popular_products :=
      ((sortByHits c).take 5).map (fun kv => (kv.2.product_name, kv.2.cache_hits)) }

end NutritionCache

/-- Python truthiness of an `Optional[Dict]`: `None` and the empty dict are
falsy, a non-empty dict is truthy. -/
def pyTruthyNutr : Option Nutrition → Bool
  | none => false
  | some n => !n.isEmpty

/-- Module-level `get_cached_nutrition` in `nutrition_cache.py`: reads the
cache and increments the hit counter only when the returned mapping is truthy
(non-`None` and non-empty).  Returns the post-call store and the value the
Python function returns. -/
def get_cached_nutrition (c : Cache) (product_url : Str) : Cache × Option Nutrition :=
  let nutrition := NutritionCache.get_nutrition c product_url
  if pyTruthyNutr nutrition then
    (NutritionCache.increment_hit_count c product_url, nutrition)
  else (c, nutrition)

/-- Module-level `cache_nutrition` in `nutrition_cache.py`. -/
def cache_nutrition (c : Cache) (product_url product_name : Str)
    (nutrition_data : Nutrition) (now : Str) : Cache :=
  NutritionCache.set_nutrition c product_url product_name nutrition_data now

/-- A product dict as built by the scrapers (`_create_product_dict` /
the literal dict in `RealTescoScraper._extract_real_product_data`). -/
structure Product where
  name : Str
  price : Str
  url : Str
  image : Str
  unit_price : Str
  promotion : Str
  availability : Bool
  brand : Str
  nutrition : Nutrition
  product_id : Str
  tpnc : Str
deriving Repr, DecidableEq

/-- Shared storefront base URL (`self.base_url`). -/
def base_url : Str := strL "https://www.tesco.com"

/-- Anchored match of regex `LIT(CAP+)TERM` at the head of `s`, where `LIT` is
a literal, `CAP` is a character class given by `good`, and `TERM` is a single
terminator character not in the class (so greedy matching is deterministic).
This is the shape of all four `re.findall` patterns in
`RealTescoScraper._extract_real_product_data`.  Returns the capture and the
rest of the string after the match. -/
def matchLitCapAt (lit : Str) (good : Char → Bool) (term : Char) (s : Str) :
    Option (Str × Str) :=
  if List.isPrefixOf lit s then
    let rest := s.drop lit.length
    let cap := rest.takeWhile good
    if cap.isEmpty then none
    else
      match rest.drop cap.length with
      | t :: rest2 => if t = term then some (cap, rest2) else none
      | [] => none
  else none

/-- `re.findall` driver for `matchLitCapAt`: non-overlapping, left to right,
advancing one character on a failed match attempt.  `fuel = s.length` always
suffices since a successful match consumes at least the literal. -/
def findallLitCap (lit : Str) (good : Char → Bool) (term : Char) :
    Nat → Str → List Str
  | 0, _ => []
  | _, [] => []
  | fuel + 1, s =>
    match matchLitCapAt lit good term s with
    | some (cap, remaining) => cap :: findallLitCap lit good term fuel remaining
    | none => findallLitCap lit good term fuel (s.drop 1)

/-- `re.findall (LIT CAP+ TERM)` over a whole string. -/
def findallLitCapAll (lit : Str) (good : Char → Bool) (term : Char) (s : Str) :
    List Str :=
  findallLitCap lit good term s.length s

/-- Case-insensitive literal prefix (`re.IGNORECASE` literal matching). -/
def ciIsPrefixOf : Str → Str → Bool
  | [], _ => true
  | _ :: _, [] => false
  | a :: as, b :: bs => (a.toLower = b.toLower) && ciIsPrefixOf as bs

/-- Anchored match of the tail `LIT2\s*"([^"]+)"` of the
`SimpleTescoScraper._extract_from_json_patterns` patterns: case-insensitive
literal, greedy whitespace, quote, non-empty non-quote capture, quote.
Greedy `\s*` and `[^"]+` are deterministic here because the character after
each run is a quote, which neither class can consume.  Returns the capture
and the rest after the closing quote. -/
def matchTailAt (lit2 : Str) (s : Str) : Option (Str × Str) :=
  if ciIsPrefixOf lit2 s then
    match (s.drop lit2.length).dropWhile isPySpace with
    | '"' :: r2 =>
      let cap := r2.takeWhile (fun ch => ch ≠ '"')
      if cap.isEmpty then none
      else
        match r2.drop cap.length with
        | '"' :: r3 => some (cap, r3)
        | _ => none
    | _ => none
  else none

/-- Greedy backtracking for the `[^\x7d]*` gap: tries the longest candidate
suffix first (`s.drop g`), then shorter gaps down to the empty gap, exactly
as a greedy star backtracks in Python's `re`. -/
def findFirstTail (lit2 : Str) (s : Str) : Nat → Option (Str × Str)
  | 0 => matchTailAt lit2 s
  | g + 1 =>
    match matchTailAt lit2 (s.drop (g + 1)) with
    | some r => some r
    | none => findFirstTail lit2 s g

/-- Anchored match of a full two-capture pattern
`LIT1\s*"([^"]+)"[^\x7d]*LIT2\s*"([^"]+)"` (case-insensitive), the common
shape of the three patterns in `SimpleTescoScraper._extract_from_json_patterns`.
Returns both captures and the rest after the match. -/
def matchPairAt (lit1 lit2 : Str) (s : Str) : Option (Str × Str × Str) :=
  if ciIsPrefixOf lit1 s then
    match (s.drop lit1.length).dropWhile isPySpace with
    | '"' :: r2 =>
      let cap1 := r2.takeWhile (fun ch => ch ≠ '"')
      if cap1.isEmpty then none
      else
        match r2.drop cap1.length with
        | '"' :: r3 =>
          let gapLen := (r3.takeWhile (fun ch => ch ≠ '}')).length
          (findFirstTail lit2 r3 gapLen).map (fun m => (cap1, m.1, m.2))
        | _ => none
    | _ => none
  else none

/-- `re.findall` driver for the two-capture patterns: non-overlapping, left to
right, advancing one character on failure. -/
def findallPairs (lit1 lit2 : Str) : Nat → Str → List (Str × Str)
  | 0, _ => []
  | _, [] => []
  | fuel + 1, s =>
    match matchPairAt lit1 lit2 s with
    | some (c1, c2, remaining) => (c1, c2) :: findallPairs lit1 lit2 fuel remaining
    | none => findallPairs lit1 lit2 fuel (s.drop 1)

/-- `re.findall` of a two-capture pattern over a whole string. -/
def findallPairsAll (lit1 lit2 : Str) (s : Str) : List (Str × Str) :=
  findallPairs lit1 lit2 s.length s

namespace SimpleTescoScraper

/-- `SimpleTescoScraper._extract_brand_from_title`: storefront-prefixed titles
map case-insensitive sub-brand keywords to specialized labels; otherwise the
first whitespace token of the title; `'Unknown'` for a token-free title. -/
def extract_brand_from_title (title : Str) : Str :=
  let title_lower := toLowerStr title
  if List.isPrefixOf (strL "Tesco") title then
    if strContains title_lower (strL "finest") then strL "Tesco Finest"
    else if strContains title_lower (strL "organic") then strL "Tesco Organic"
    else if strContains title_lower (strL "free range") then strL "Tesco Free Range"
    else strL "Tesco"
  else
    match firstWord title with
    | some w => w
    | none => strL "Unknown"

/-- `SimpleTescoScraper._create_product_dict`. -/
def create_product_dict (title product_id : Str) : Product :=
  { name := title
    price := strL "Price not available"
    url := base_url ++ strL "/groceries/en-GB/products/" ++ product_id
    image := []
    unit_price := []
    promotion := []
    availability := true
    brand := extract_brand_from_title title
    nutrition := []
    product_id := product_id
    tpnc := product_id }

/-- The literal parts of the three patterns in
`SimpleTescoScraper._extract_from_json_patterns`, in source order. -/
def jsonPatternPairs : List (Str × Str) :=
  [(strL "\"title\":", strL "\"tpnc\":"),
   (strL "\"productName\":", strL "\"id\":"),
   (strL "\"name\":", strL "\"productId\":")]

/-- `SimpleTescoScraper._extract_from_json_patterns`: runs the three
two-capture patterns over the content in order, appending a product for every
match whose title and id both have length > 3.  (The Python guard
`len(match) >= 2` is vacuous for two-group patterns and is dropped.) -/
def extract_from_json_patterns (html : Str) : List Product :=
  jsonPatternPairs.foldl
    (fun products pat =>
      products ++ (findallPairsAll pat.1 pat.2 html).filterMap
        (fun m =>
          if 3 < m.1.length ∧ 3 < m.2.length then
            some (create_product_dict m.1 m.2)
          else none))
    []

/-- `re.search(r'/products/(\d+)', href)`: the digit run after the first
occurrence of `/products/` that is immediately followed by at least one
digit.  A `/products/` occurrence with no following digit does not stop the
search (the regex engine keeps scanning). -/
def searchProductsId : Str → Option Str
  | [] => none
  | s :: rest =>
    if List.isPrefixOf (strL "/products/") (s :: rest) then
      let ds := ((s :: rest).drop (strL "/products/").length).takeWhile Char.isDigit
      if ds.isEmpty then searchProductsId rest else some ds
    else searchProductsId rest

/-- `SimpleTescoScraper._extract_from_html_patterns`.  BeautifulSoup DOM
parsing is abstracted: `product_links` stands for the `(href, stripped text)`
pairs of the anchor elements found by `soup.find_all('a', href=...)`, in
document order.  The href-regex filter, the `[:20]` cap, the id extraction,
and the title guards are modelled faithfully. -/
def extract_from_html_patterns (product_links : List (Str × Str)) : List Product :=
  ((product_links.filter (fun l => (searchProductsId l.1).isSome)).take 20).filterMap
    (fun l =>
      match searchProductsId l.1 with
      | some product_id =>
        if !l.2.isEmpty ∧ 3 < l.2.length then
          some (create_product_dict l.2 product_id)
        else none
      | none => none)

/-- `SimpleTescoScraper._extract_from_text_patterns`.  The three
query-interpolated regexes are abstracted: `textMatches` stands for the
`re.findall` result of each pattern (in pattern order), and `hashF` for
Python's process-seeded `hash` on strings (Python's `% 1000000000` of a
possibly negative hash is non-negative, so `Nat` is faithful).  The `[:10]`
cap, the length > 10 guard, the `strip`, and the derived id are modelled
faithfully. -/
def extract_from_text_patterns (textMatches : List (List Str)) (hashF : Str → Nat) :
    List Product :=
  textMatches.foldl
    (fun products ms =>
      products ++ (ms.take 10).filterMap
        (fun m =>
          if 10 < m.length then
            some (create_product_dict (stripStr m) (natToStr (hashF m % 1000000000)))
          else none))
    []

/-- `SimpleTescoScraper._extract_products_robust`: ordered cascade — embedded
JSON patterns, then (only if still empty) HTML anchor patterns, then (only if
still empty) last-resort text patterns.  The `query` argument of the Python
method only feeds the abstracted text-pattern regexes and is subsumed by
`textMatches`. -/
def extract_products_robust (product_links : List (Str × Str))
    (textMatches : List (List Str)) (hashF : Str → Nat) (html : Str) : List Product :=
  let products := [] ++ extract_from_json_patterns html
  let products :=
    if products.isEmpty then products ++ extract_from_html_patterns product_links
    else products
  if products.isEmpty then products ++ extract_from_text_patterns textMatches hashF
  else products

end SimpleTescoScraper

namespace RealTescoScraper

/-- `RealTescoScraper._extract_brand_from_title`: like the simple variant but
case-sensitive keyword checks, no "free range" label, and an empty-string
default when the title has no whitespace token. -/
def extract_brand_from_title (title : Str) : Str :=
  if List.isPrefixOf (strL "Tesco") title then
    if strContains title (strL "Finest") then strL "Tesco Finest"
    else if strContains title (strL "Organic") then strL "Tesco Organic"
    else strL "Tesco"
  else
    match firstWord title with
    | some w => w
    | none => []

end RealTescoScraper

/-- An HTTP response as observed by the scrapers: status code and body text.
A `none` response at a call site models a raised transport exception
(timeout, connection error), which every caller catches. -/
structure Response where
  status : Nat
  text : Str

/-- The effect environment of `RealTescoScraper`: the constructor flag, the
network (URL → response), the BeautifulSoup nutrition-parsing strategies of
`_get_real_nutrition_raw` lines 341-489 abstracted as a function of the body
text, and the formatted price strings produced by the price-regex scan of
`_enrich_with_price_data` (float arithmetic and f-string formatting are
outside the model, so the scan's output is a parameter). -/
structure RealEnv where
  extract_nutrition : Bool
  resp : Str → Option Response
  parse : Str → Nutrition
  numeric_prices : List Str

namespace RealTescoScraper

/-- `RealTescoScraper._get_real_nutrition_raw` up to its DOM strategies: a
transport exception (`none`) or a 4xx/5xx status (`raise_for_status`) is
caught and yields the empty map; a body under 5000 characters, a body
containing `Access Denied` or (lowercased) `blocked`, or a 403 status yields
the empty map; otherwise the parsing strategies run on the body. -/
def get_real_nutrition_raw (env : RealEnv) (product_url : Str) : Nutrition :=
  match env.resp product_url with
  | none => []
  | some r =>
    if 400 ≤ r.status then []
    else if r.text.length < 5000 then []
    else if strContains r.text (strL "Access Denied")
         || strContains (toLowerStr r.text) (strL "blocked") then []
    else if r.status = 403 then []
    else env.parse r.text

/-- `RealTescoScraper._get_real_nutrition_with_name`: cache lookup first (via
the module-level `get_cached_nutrition`), returning a truthy hit at once; on
a falsy lookup, one raw detail-page fetch, written through to the cache only
when non-empty.  The third component is an observational annotation recording
whether a raw fetch happened and whether it produced data (`none` = served
from cache, `some b` = one fetch attempted, succeeding iff `b`); it is not
part of the Python return value. -/
def get_real_nutrition_with_name (env : RealEnv) (c : Cache)
    (product_url product_name now : Str) : Cache × Nutrition × Option Bool :=
  let looked := get_cached_nutrition c product_url
  if pyTruthyNutr looked.2 then (looked.1, looked.2.getD [], none)
  else
    let nutrition_data := get_real_nutrition_raw env product_url
    if !nutrition_data.isEmpty then
      (cache_nutrition looked.1 product_url product_name nutrition_data now,
       nutrition_data, some true)
    else (looked.1, nutrition_data, some false)

/-- The positional price-assignment loop of `_enrich_with_price_data`: the
i-th collected price string goes to the i-th product; products beyond the
price list keep their sentinel.  (The derived unit-price computation is float
arithmetic on the same field and touches no other field; it is outside the
model.) -/
def assign_prices : List Str → List Product → List Product
  | _, [] => []
  | [], products => products
  | price :: prices, p :: products => { p with price := price } :: assign_prices prices products

/-- The nutrition loop of `_enrich_with_price_data` (lines 261-268): when
nutrition extraction is enabled, every product whose `nutrition` dict is
falsy gets a `_get_real_nutrition_with_name` call — there is no cap on the
number of detail fetches and a failed fetch does not stop the loop.  The
third result collects the fetch-attempt annotations in order. -/
def enrich_nutrition_pass (env : RealEnv) (now : Str) :
    List Product → Cache → List Product × Cache × List Bool
  | [], c => ([], c, [])
  | p :: rest, c =>
    if p.nutrition.isEmpty then
      let step := get_real_nutrition_with_name env c p.url p.name now
      let tail := enrich_nutrition_pass env now rest step.1
      ({ p with nutrition := step.2.1 } :: tail.1, tail.2.1,
        (step.2.2.map (fun b => [b])).getD [] ++ tail.2.2)
    else
      let tail := enrich_nutrition_pass env now rest c
      (p :: tail.1, tail.2.1, tail.2.2)

/-- `RealTescoScraper._enrich_with_price_data`: positional price assignment,
then the optional nutrition pass. -/
def enrich_with_price_data (env : RealEnv) (c : Cache) (products : List Product)
    (now : Str) : List Product × Cache × List Bool :=
  let products := assign_prices env.numeric_prices products
  if env.extract_nutrition then enrich_nutrition_pass env now products c
  else (products, c, [])

/-- The product-construction loop of `_extract_real_product_data` (lines
127-147): the i-th title (kept only when truthy and longer than 5) is zipped
with the i-th product id, tpnc and brand, substituting `unknown_<i>`, the
product id, and a title-derived brand respectively when a list is short. -/
def buildProducts (product_ids tpncs brands : List Str) :
    List Str → Nat → List Product
  | [], _ => []
  | title :: titles, i =>
    let rest := buildProducts product_ids tpncs brands titles (i + 1)
    if !title.isEmpty ∧ 5 < title.length then
      let product_id := (product_ids.get? i).getD (strL "unknown_" ++ natToStr i)
      let tpnc := (tpncs.get? i).getD product_id
      let brand := (brands.get? i).getD (extract_brand_from_title title)
      { name := title
        price := strL "Price not available"
        url := base_url ++ strL "/groceries/en-GB/products/" ++ tpnc
        image := strL "https://digitalcontent.api.tesco.com/v2/media/ghs/default-product.jpeg"
        unit_price := []
        promotion := []
        availability := true
        brand := brand
        nutrition := []
        product_id := product_id
        tpnc := tpnc } :: rest
    else rest

/-- `RealTescoScraper._is_valid_product`: truthy name of length > 5, truthy
product id, truthy url. -/
def is_valid_product (p : Product) : Bool :=
  !p.name.isEmpty && decide (5 < p.name.length) && !p.product_id.isEmpty && !p.url.isEmpty

/-- `RealTescoScraper._extract_real_product_data`: the four `re.findall`
scans, the positional zip, price/nutrition enrichment, then the validity
filter.  Also returns the cache after enrichment and the fetch-attempt
annotations. -/
def extract_real_product_data (env : RealEnv) (c : Cache) (html now : Str) :
    List Product × Cache × List Bool :=
  let titles := findallLitCapAll (strL "\"title\":\"") (fun ch => ch ≠ '"') '"' html
  let product_ids := findallLitCapAll (strL "\"ProductType:") Char.isDigit '"' html
  let tpncs := findallLitCapAll (strL "\"tpnc\":\"") Char.isDigit '"' html
  let brands := findallLitCapAll (strL "\"brandName\":\"") (fun ch => ch ≠ '"') '"' html
  let products := buildProducts product_ids tpncs brands titles 0
  let enriched := enrich_with_price_data env c products now
  (enriched.1.filter is_valid_product, enriched.2.1, enriched.2.2)

/-- `RealTescoScraper.search_products`: a transport exception or error status
on the search page yields `[]` (caught in the method); otherwise the
extracted products, truncated to `limit`, or `[]` when extraction found
nothing. -/
def search_products (env : RealEnv) (c : Cache) (searchResp : Option Response)
    (limit : Nat) (now : Str) : List Product × Cache :=
  match searchResp with
  | none => ([], c)
  | some r =>
    if 400 ≤ r.status then ([], c)
    else
      let extracted := extract_real_product_data env c r.text now
      if extracted.1.isEmpty then ([], extracted.2.1)
      else (extracted.1.take limit, extracted.2.1)

end RealTescoScraper

/-- The effect environment of `SimpleTescoScraper`: constructor flag, the
network, the `_extract_nutrition_from_html` BeautifulSoup strategies
abstracted as a function of body text, and the abstractions feeding
strategies 2 and 3 of the extraction cascade. -/
structure SimpleEnv where
  extract_nutrition : Bool
  resp : Str → Option Response
  parse : Str → Nutrition
  product_links : List (Str × Str)
  textMatches : List (List Str)
  hashF : Str → Nat

namespace SimpleTescoScraper

/-- `SimpleTescoScraper._get_nutrition_ultra_cautious`: one detail-page fetch;
a transport exception, a 403, any other non-200 status, or a body under
10000 characters yields the empty map; a non-empty extraction is written
through to the cache. -/
def get_nutrition_ultra_cautious (env : SimpleEnv) (c : Cache)
    (product_url product_name now : Str) : Cache × Nutrition :=
  match env.resp product_url with
  | none => (c, [])
  | some r =>
    if r.status = 403 then (c, [])
    else if r.status ≠ 200 then (c, [])
    else if r.text.length < 10000 then (c, [])
    else
      let nutrition_data := env.parse r.text
      if !nutrition_data.isEmpty then
        (cache_nutrition c product_url product_name nutrition_data now, nutrition_data)
      else (c, nutrition_data)

/-- The loop of `SimpleTescoScraper._add_nutrition_cautiously`, with the
running success count `nutrition_count` explicit.  A success count of 2 stops
before any further product; products without url or name are skipped; a
truthy cache hit fills the product without a fetch; otherwise one
ultra-cautious fetch runs — a success increments the count, a failure breaks
the loop at once, leaving the remaining products untouched.  The `List Bool`
result records each detail-page fetch attempted, `true` iff it succeeded
(an observational annotation, not a Python value). -/
def add_nutrition_aux (env : SimpleEnv) (now : Str) :
    List Product → Cache → Nat → List Product × Cache × List Bool
  | [], c, _ => ([], c, [])
  | p :: rest, c, nutrition_count =>
    if 2 ≤ nutrition_count then (p :: rest, c, [])
    else if p.url.isEmpty || p.name.isEmpty then
      let tail := add_nutrition_aux env now rest c nutrition_count
      (p :: tail.1, tail.2.1, tail.2.2)
    else
      let looked := get_cached_nutrition c p.url
      if pyTruthyNutr looked.2 then
        let tail := add_nutrition_aux env now rest looked.1 nutrition_count
        ({ p with nutrition := looked.2.getD [] } :: tail.1, tail.2.1, tail.2.2)
      else
        let fetched := get_nutrition_ultra_cautious env looked.1 p.url p.name now
        if !fetched.2.isEmpty then
          let tail := add_nutrition_aux env now rest fetched.1 (nutrition_count + 1)
          ({ p with nutrition := fetched.2 } :: tail.1, tail.2.1, true :: tail.2.2)
        else (p :: rest, fetched.1, [false])

/-- `SimpleTescoScraper._add_nutrition_cautiously`: the loop above started
with a zero success count. -/
def add_nutrition_cautiously (env : SimpleEnv) (now : Str)
    (products : List Product) (c : Cache) : List Product × Cache × List Bool :=
  add_nutrition_aux env now products c 0

/-- `SimpleTescoScraper.search_products`: a transport exception or error
status yields `[]`; a body under 10000 characters is treated as a soft block
and yields `[]`; otherwise the cascade runs, the optional cautious nutrition
pass is applied, and the result is truncated to `limit`. -/
def search_products (env : SimpleEnv) (c : Cache) (searchResp : Option Response)
    (limit : Nat) (now : Str) : List Product × Cache :=
  match searchResp with
  | none => ([], c)
  | some r =>
    if 400 ≤ r.status then ([], c)
    else if r.text.length < 10000 then ([], c)
    else
      let products :=
        extract_products_robust env.product_links env.textMatches env.hashF r.text
      if products.isEmpty then ([], c)
      else
        let enriched :=
          if env.extract_nutrition then add_nutrition_cautiously env now products c
          else (products, c, [])
        (enriched.1.take limit, enriched.2.1)

end SimpleTescoScraper

/-- One element of the list returned past the tool boundary: a product dict,
a dict with a single `error` key, or a dict with a single `message` key. -/
inductive ToolEntry where
  | product (p : Product)
  | errorEntry (msg : Str)
  | messageEntry (msg : Str)
deriving Repr, DecidableEq

/-- The `error` field of a returned entry, as an orchestration-layer caller
inspecting `result[0].error` would see it. -/
def ToolEntry.errorField : ToolEntry → Option Str
  | .errorEntry msg => some msg
  | _ => none

/-- The `search_tesco_products_real` tool function: an empty product list
becomes a one-element `error` entry; otherwise the products are returned.
Its `except` arm (an exception escaping `search_products`, which itself
catches everything) is unreachable in the model. -/
def search_tesco_products_real (env : RealEnv) (c : Cache)
    (searchResp : Option Response) (query : Str) (limit : Nat) (now : Str) :
    List ToolEntry × Cache :=
  let res := RealTescoScraper.search_products env c searchResp limit now
  if res.1.isEmpty then
    ([ToolEntry.errorEntry (strL "No products found for '" ++ query ++ strL "'")], res.2)
  else (res.1.map ToolEntry.product, res.2)

/-- The `search_tesco_products_simple` tool function: an empty product list
becomes a one-element `message` entry (not an `error` entry); otherwise the
products are returned.  Its `except` arm is likewise unreachable. -/
def search_tesco_products_simple (env : SimpleEnv) (c : Cache)
    (searchResp : Option Response) (query : Str) (limit : Nat) (now : Str) :
    List ToolEntry × Cache :=
  let res := SimpleTescoScraper.search_products env c searchResp limit now
  if res.1.isEmpty then
    ([ToolEntry.messageEntry
        (strL "No products found for '" ++ query
          ++ strL "' - search may be temporarily limited")], res.2)
  else (res.1.map ToolEntry.product, res.2)

/-- One `get` + `incrementHit` call pair on the cache, as performed by a
caller that reads and then bumps the counter: `get_nutrition` is read-only,
so the post-pair store is that of `increment_hit_count`. -/
def getIncPair (c : Cache) (url : Str) : Option Nutrition × Cache :=
  (NutritionCache.get_nutrition c url, NutritionCache.increment_hit_count c url)

/-- `n` successive `get` + `incrementHit` call pairs on the same URL. -/
def incrementN (url : Str) : Nat → Cache → Cache
  | 0, c => c
  | n + 1, c => incrementN url n (getIncPair c url).2

/-- The blocked-response conditions of the spec for a detail-page response:
body below the 5000-character minimum-size threshold, a block-indicator
phrase in the body, or a forbidden (4xx/5xx) status.  A `none` (transport
exception) is not a blocked response. -/
def blockedResponse : Option Response → Bool
  | none => false
  | some r =>
    decide (r.text.length < 5000)
    || strContains r.text (strL "Access Denied")
    || strContains (toLowerStr r.text) (strL "blocked")
    || decide (400 ≤ r.status)

/-- A minimal real-scraper environment for concrete scenarios: nutrition
extraction off, every request failing, no prices collected. -/
def trivialRealEnv : RealEnv :=
  { extract_nutrition := false
    resp := fun _ => none
    parse := fun _ => []
    numeric_prices := [] }

/-- A real-scraper environment with nutrition extraction on and every
detail-page request failing with a transport error. -/
def fetchFailRealEnv : RealEnv :=
  { extract_nutrition := true
    resp := fun _ => none
    parse := fun _ => []
    numeric_prices := [] }

/-- A simple-scraper environment with every request failing and empty
strategy-2/3 inputs. -/
def noNetworkSimpleEnv : SimpleEnv :=
  { extract_nutrition := false
    resp := fun _ => none
    parse := fun _ => []
    product_links := []
    textMatches := []
    hashF := fun _ => 0 }

/-- A simple-scraper environment with nutrition extraction on and every
detail-page request failing with a transport error. -/
def failNutritionSimpleEnv : SimpleEnv :=
  { extract_nutrition := true
    resp := fun _ => none
    parse := fun _ => []
    product_links := []
    textMatches := []
    hashF := fun _ => 0 }

/-- A concrete product for counterexample scenarios: named, with a detail
URL, no nutrition yet. -/
def namedProduct (n id : String) : Product :=
  { name := strL n
    price := strL "Price not available"
    url := base_url ++ strL "/groceries/en-GB/products/" ++ strL id
    image := []
    unit_price := []
    promotion := []
    availability := true
    brand := []
    nutrition := []
    product_id := strL id
    tpnc := strL id }

/-- A batch of three cache-missing products for the fetch-cap scenario. -/
def c9Products : List Product :=
  [namedProduct "Prod One" "1", namedProduct "Prod Two" "2", namedProduct "Prod Three" "3"]

/-- Search-page content satisfying only strategy 1 (one embedded-JSON
title/tpnc pair) with a name longer than 5 characters. -/
def jsonOnlyHtml : Str := strL "\"title\": \"Chicken Breast Fillets 300G\", \"tpnc\": \"12345\""

/-- Search-page content whose only embedded-JSON product has a 4-character
name — longer than the simple scraper's > 3 threshold but not longer than 5. -/
def shortNameHtml : Str := strL "\"title\": \"abcd\", \"tpnc\": \"9999\""

/-- Real-scraper search-page content with a single title and no id/tpnc/brand
records, exercising the positional-zip fallbacks. -/
def realTitleHtml : Str := strL "\"title\":\"Chicken Breast Fillets 650G\""

/-- A fallback product value for `headD` in concrete scenarios. -/
def dummyProduct : Product := namedProduct "dummy" "0"

/-- A cache entry with an explicitly cached empty nutrition mapping and a
non-zero hit count. -/
def emptyNutritionEntry : CacheEntry :=
  { product_name := strL "Cached Prod"
    product_url := strL "https://x/products/42"
    nutrition := []
    cached_at := strL "t0"
    cache_hits := 3 }

/-- A one-entry cache holding `emptyNutritionEntry` under key `42`. -/
def emptyNutritionCache : Cache := [(strL "42", emptyNutritionEntry)]

/-- A cache entry with a non-empty nutrition mapping. -/
def proteinEntry : CacheEntry :=
  { product_name := strL "Chicken"
    product_url := strL "https://x/products/7"
    nutrition := [(strL "protein", strL "21.5g")]
    cached_at := strL "t0"
    cache_hits := 1 }

/-- A one-entry cache holding `proteinEntry` under key `7`. -/
def proteinCache : Cache := [(strL "7", proteinEntry)]

/-- A real-scraper environment whose detail-page responses are 200s with a
body far below the 5000-character minimum-size threshold (a soft block). -/
def shortBodyEnv : RealEnv :=
  { extract_nutrition := true
    resp := fun _ => some { status := 200, text := strL "tiny interstitial" }
    parse := fun _ => [(strL "energy", strL "115kcal")]
    numeric_prices := [] }

theorem lookupKey_insertKey_self (c : Cache) (key : Str) (e : CacheEntry) :
    lookupKey (insertKey c key e) key = some e := by
  induction c with
  | nil => simp [insertKey, lookupKey]
  | cons kv rest ih =>
    obtain ⟨k, e0⟩ := kv
    by_cases h : k = key
    · simp [insertKey, lookupKey, h]
    · simp [insertKey, lookupKey, h, ih]

theorem bumpHits_hits_sum (c : Cache) (key : Str)
    (h : (lookupKey c key).isSome = true) :
    ((bumpHits c key).map (fun kv => kv.2.cache_hits)).sum
      = (c.map (fun kv => kv.2.cache_hits)).sum + 1 := by
  induction c with
  | nil => simp [lookupKey] at h
  | cons kv rest ih =>
    obtain ⟨k, e⟩ := kv
    by_cases hk : k = key
    · simp [bumpHits, hk]
      omega
    · simp only [lookupKey, if_neg hk] at h
      simp [bumpHits, hk, ih h]
      omega

theorem lookupKey_bumpHits_isSome (c : Cache) (key : Str) :
    (lookupKey (bumpHits c key) key).isSome = (lookupKey c key).isSome := by
  induction c with
  | nil => simp [bumpHits]
  | cons kv rest ih =>
    obtain ⟨k, e⟩ := kv
    by_cases hk : k = key
    · simp [bumpHits, lookupKey, hk]
    · simp [bumpHits, lookupKey, hk, ih]

theorem increment_hit_count_eq (c : Cache) (url : Str) :
    NutritionCache.increment_hit_count c url
      = match lookupKey c (NutritionCache.get_product_key url) with
        | some _ => bumpHits c (NutritionCache.get_product_key url)
        | none => c := rfl

theorem increment_hit_count_total (c : Cache) (url : Str)
    (h : (lookupKey c (NutritionCache.get_product_key url)).isSome = true) :
    (NutritionCache.get_cache_stats
        (NutritionCache.increment_hit_count c url)).total_cache_hits
      = (NutritionCache.get_cache_stats c).total_cache_hits + 1 := by
  rw [increment_hit_count_eq]
  cases hl : lookupKey c (NutritionCache.get_product_key url) with
  | none => rw [hl] at h; simp at h
  | some e =>
    simp only [NutritionCache.get_cache_stats]
    exact bumpHits_hits_sum c _ h

theorem increment_hit_count_isSome (c : Cache) (url : Str) :
    (lookupKey (NutritionCache.increment_hit_count c url)
        (NutritionCache.get_product_key url)).isSome
      = (lookupKey c (NutritionCache.get_product_key url)).isSome := by
  rw [increment_hit_count_eq]
  cases hl : lookupKey c (NutritionCache.get_product_key url) with
  | none => simp [hl]
  | some e => rw [lookupKey_bumpHits_isSome, hl]

/-- **C1** — Cache round-trip: for every prior store, URL, name, well-formed
nutrition mapping `f` (the empty mapping included), and timestamp,
`set_nutrition` followed by `get_nutrition` on the same URL returns exactly
`f` as a hit value (`some f`), which is distinct from the miss signal
(`none`). -/
theorem c1_cache_round_trip (c : Cache) (url name : Str) (f : Nutrition) (now : Str) :
    NutritionCache.get_nutrition (NutritionCache.set_nutrition c url name f now) url
      = some f ∧
    NutritionCache.get_nutrition (NutritionCache.set_nutrition c url name f now) url
      ≠ none := by
  have hget :
      NutritionCache.get_nutrition (NutritionCache.set_nutrition c url name f now) url
        = some f := by
    unfold NutritionCache.get_nutrition NutritionCache.set_nutrition
    rw [lookupKey_insertKey_self]
  exact ⟨hget, by rw [hget]; simp⟩

/-- **C2** — Key derivation is a pure deterministic function of the URL:
repeated calls agree; the key of `https://x/products/123` is `123` (the
segment following `/products/`); any URL not containing `/products/` is its
own key. -/
theorem c2_key_derivation :
    (∀ u : Str, NutritionCache.get_product_key u = NutritionCache.get_product_key u) ∧
    NutritionCache.get_product_key (strL "https://x/products/123") = strL "123" ∧
    (∀ u : Str, strContains u NutritionCache.productsSep = false →
      NutritionCache.get_product_key u = u) := by
  refine ⟨fun _ => rfl, by decide, fun u h => ?_⟩
  unfold NutritionCache.get_product_key
  rw [h]
  simp

/-- Witness for C2 at the spec's own example URLs: `https://x/no-match` does
not contain `/products/` and derives to itself. -/
theorem c2_key_derivation_witness :
    strContains (strL "https://x/no-match") NutritionCache.productsSep = false ∧
    NutritionCache.get_product_key (strL "https://x/no-match")
      = strL "https://x/no-match" :=
  ⟨by decide, c2_key_derivation.2.2 (strL "https://x/no-match") (by decide)⟩

/-- **C5** — Hit counting: `n` `get`+`incrementHit` call pairs on a key
present in the cache raise `stats().total_cache_hits` by exactly `n`
(`get_nutrition` is read-only, so the state effect of a pair is
`increment_hit_count`); `incrementHit` on an absent key is a no-op that
leaves the store unchanged. -/
theorem c5_hit_counting :
    (∀ (c : Cache) (url : Str) (n : Nat),
      (lookupKey c (NutritionCache.get_product_key url)).isSome = true →
      (NutritionCache.get_cache_stats (incrementN url n c)).total_cache_hits
        = (NutritionCache.get_cache_stats c).total_cache_hits + n) ∧
    (∀ (c : Cache) (url : Str),
      lookupKey c (NutritionCache.get_product_key url) = none →
      NutritionCache.increment_hit_count c url = c) := by
  constructor
  · intro c url n
    induction n generalizing c with
    | zero => intro _; rfl
    | succ n ih =>
      intro h
      have hstep := increment_hit_count_total c url h
      have hpres : (lookupKey (NutritionCache.increment_hit_count c url)
          (NutritionCache.get_product_key url)).isSome = true := by
        rw [increment_hit_count_isSome]; exact h
      calc (NutritionCache.get_cache_stats (incrementN url (n + 1) c)).total_cache_hits
          = (NutritionCache.get_cache_stats
              (incrementN url n (NutritionCache.increment_hit_count c url))).total_cache_hits := rfl
        _ = (NutritionCache.get_cache_stats
              (NutritionCache.increment_hit_count c url)).total_cache_hits + n := ih _ hpres
        _ = (NutritionCache.get_cache_stats c).total_cache_hits + 1 + n := by rw [hstep]
        _ = (NutritionCache.get_cache_stats c).total_cache_hits + (n + 1) := by omega
  · intro c url h
    rw [increment_hit_count_eq, h]

/-- Witness for C5: two pairs on the cached key `7` raise the total from 1 to
3; bumping the absent key `99` leaves the one-entry store unchanged. -/
theorem c5_hit_counting_witness :
    (lookupKey proteinCache
        (NutritionCache.get_product_key (strL "https://x/products/7"))).isSome = true ∧
    (NutritionCache.get_cache_stats
        (incrementN (strL "https://x/products/7") 2 proteinCache)).total_cache_hits
      = (NutritionCache.get_cache_stats proteinCache).total_cache_hits + 2 ∧
    lookupKey proteinCache
        (NutritionCache.get_product_key (strL "https://x/products/99")) = none ∧
    NutritionCache.increment_hit_count proteinCache (strL "https://x/products/99")
      = proteinCache :=
  ⟨by decide, c5_hit_counting.1 proteinCache (strL "https://x/products/7") 2 (by decide),
   by decide, c5_hit_counting.2 proteinCache (strL "https://x/products/99") (by decide)⟩

/-- **C10** — The module-level `get_cached_nutrition` increments no hit
counter for a cache entry holding an empty nutrition map: the store is
returned unchanged, and the returned `some []` has the same truthiness as a
miss (`None`), so truthiness-testing callers re-fetch; in particular the
real scraper's `_get_real_nutrition_with_name` performs a raw detail fetch
(the attempt annotation is `some _`) on such an entry. -/
theorem c10_empty_cached_nutrition :
    (∀ (c : Cache) (url : Str) (e : CacheEntry),
      lookupKey c (NutritionCache.get_product_key url) = some e → e.nutrition = [] →
      get_cached_nutrition c url = (c, some []) ∧
      pyTruthyNutr (get_cached_nutrition c url).2 = pyTruthyNutr none) ∧
    (∀ (env : RealEnv) (c : Cache) (url name now : Str) (e : CacheEntry),
      lookupKey c (NutritionCache.get_product_key url) = some e → e.nutrition = [] →
      (RealTescoScraper.get_real_nutrition_with_name env c url name now).2.2.isSome
        = true) := by
  have key1 : ∀ (c : Cache) (url : Str) (e : CacheEntry),
      lookupKey c (NutritionCache.get_product_key url) = some e → e.nutrition = [] →
      get_cached_nutrition c url = (c, some []) := by
    intro c url e hl he
    have hg : NutritionCache.get_nutrition c url = some [] := by
      simp [NutritionCache.get_nutrition, hl, he]
    simp [get_cached_nutrition, hg, pyTruthyNutr]
  refine ⟨fun c url e hl he => ⟨key1 c url e hl he, ?_⟩, fun env c url name now e hl he => ?_⟩
  · rw [key1 c url e hl he]
    rfl
  · have h1 := key1 c url e hl he
    simp only [RealTescoScraper.get_real_nutrition_with_name, h1, pyTruthyNutr]
    simp only [List.isEmpty_nil, Bool.not_true, Bool.false_eq_true, if_false]
    split <;> rfl

/-- Witness for C10 at the one-entry store whose key `42` holds an explicitly
cached empty nutrition map with 3 prior hits. -/
theorem c10_empty_cached_nutrition_witness :
    lookupKey emptyNutritionCache
        (NutritionCache.get_product_key (strL "https://x/products/42"))
      = some emptyNutritionEntry ∧
    emptyNutritionEntry.nutrition = [] ∧
    get_cached_nutrition emptyNutritionCache (strL "https://x/products/42")
      = (emptyNutritionCache, some []) ∧
    (RealTescoScraper.get_real_nutrition_with_name trivialRealEnv emptyNutritionCache
        (strL "https://x/products/42") (strL "Cached Prod") (strL "t")).2.2.isSome = true :=
  ⟨by decide, by decide,
   (c10_empty_cached_nutrition.1 emptyNutritionCache (strL "https://x/products/42")
      emptyNutritionEntry (by decide) (by decide)).1,
   c10_empty_cached_nutrition.2 trivialRealEnv emptyNutritionCache
      (strL "https://x/products/42") (strL "Cached Prod") (strL "t")
      emptyNutritionEntry (by decide) (by decide)⟩

theorem get_real_nutrition_raw_blocked (env : RealEnv) (url : Str)
    (h : blockedResponse (env.resp url) = true) :
    RealTescoScraper.get_real_nutrition_raw env url = [] := by
  unfold RealTescoScraper.get_real_nutrition_raw
  cases hr : env.resp url with
  | none => rfl
  | some r =>
    rw [hr] at h
    simp only [blockedResponse, Bool.or_eq_true, decide_eq_true_eq] at h
    by_cases h4 : 400 ≤ r.status
    · simp [h4]
    · by_cases h5 : r.text.length < 5000
      · simp [h4, h5]
      · by_cases h6 : (strContains r.text (strL "Access Denied")
            || strContains (toLowerStr r.text) (strL "blocked")) = true
        · simp [h4, h5, h6]
        · exfalso
          rcases h with ((h | h) | h) | h
          · exact h5 h
          · exact h6 (by simp [h])
          · exact h6 (by simp [h])
          · exact h4 h

/-- **C6** — Blocked-response rejection: when the cache lookup is falsy (a
true miss or an explicitly cached empty map, so a detail fetch happens) and
the detail-page response is blocked — body below the 5000-character
threshold, a block-indicator phrase in the body, or a forbidden status —
`_get_real_nutrition_with_name` returns the empty map, the store is
unchanged, and the attempted fetch failed (`some false`). -/
theorem c6_blocked_response_rejection (env : RealEnv) (c : Cache) (url name now : Str)
    (hmiss : pyTruthyNutr (NutritionCache.get_nutrition c url) = false)
    (hblocked : blockedResponse (env.resp url) = true) :
    RealTescoScraper.get_real_nutrition_raw env url = [] ∧
    RealTescoScraper.get_real_nutrition_with_name env c url name now
      = (c, [], some false) := by
  have hraw := get_real_nutrition_raw_blocked env url hblocked
  refine ⟨hraw, ?_⟩
  have hcached : get_cached_nutrition c url = (c, NutritionCache.get_nutrition c url) := by
    simp [get_cached_nutrition, hmiss]
  simp [RealTescoScraper.get_real_nutrition_with_name, hcached, hmiss, hraw]

/-- Witness for C6: an empty store and a 200 response whose body is a short
anti-bot interstitial — no nutrition, no cache write, one failed attempt. -/
theorem c6_blocked_response_rejection_witness :
    pyTruthyNutr (NutritionCache.get_nutrition [] (strL "https://x/products/9")) = false ∧
    blockedResponse (shortBodyEnv.resp (strL "https://x/products/9")) = true ∧
    RealTescoScraper.get_real_nutrition_with_name shortBodyEnv []
        (strL "https://x/products/9") (strL "Chicken") (strL "t")
      = ([], [], some false) :=
  ⟨by decide, by decide,
   (c6_blocked_response_rejection shortBodyEnv [] (strL "https://x/products/9")
      (strL "Chicken") (strL "t") (by decide) (by decide)).2⟩

/-- **C7** — Cascade short-circuit: whenever strategy 1 (embedded-JSON
extraction) yields at least one product on the page content, the extraction
cascade returns exactly strategy 1's result — the anchor-link and
text-pattern fallbacks contribute nothing, whatever their inputs hold. -/
theorem c7_cascade_short_circuit (product_links : List (Str × Str))
    (textMatches : List (List Str)) (hashF : Str → Nat) (html : Str)
    (h : SimpleTescoScraper.extract_from_json_patterns html ≠ []) :
    SimpleTescoScraper.extract_products_robust product_links textMatches hashF html
      = SimpleTescoScraper.extract_from_json_patterns html := by
  unfold SimpleTescoScraper.extract_products_robust
  have hne : (SimpleTescoScraper.extract_from_json_patterns html).isEmpty = false := by
    cases hj : SimpleTescoScraper.extract_from_json_patterns html with
    | nil => exact absurd hj h
    | cons a l => rfl
  simp [hne]

/-- Witness for C7: content matching only the title/tpnc JSON pattern, run
with a non-empty anchor link and a long fallback text match that would each
produce a product if their strategies were exercised — the cascade returns
the JSON result alone. -/
theorem c7_cascade_short_circuit_witness :
    SimpleTescoScraper.extract_from_json_patterns jsonOnlyHtml ≠ [] ∧
    SimpleTescoScraper.extract_products_robust
        [(strL "/products/99", strL "Fallback Item Name")]
        [[strL "Fallback text product match"]] (fun _ => 0) jsonOnlyHtml
      = SimpleTescoScraper.extract_from_json_patterns jsonOnlyHtml :=
  ⟨by decide,
   c7_cascade_short_circuit [(strL "/products/99", strL "Fallback Item Name")]
     [[strL "Fallback text product match"]] (fun _ => 0) jsonOnlyHtml (by decide)⟩

/-- **C3 counterexample** — On content whose only embedded-JSON product is
titled `abcd` (length 4 > 3 but not > 5), the simple scraper's extraction
engine returns that product: the claimed universal `name.length > 5` filter
fails, since `_extract_from_json_patterns` only requires length > 3 and
`_extract_products_robust` applies no further validity filter. -/
theorem c3_validity_filter_counterexample :
    ((SimpleTescoScraper.extract_products_robust [] [] (fun _ => 0) shortNameHtml).map
      (fun p => p.name)) = [strL "abcd"] ∧
    ¬ (∀ p ∈ SimpleTescoScraper.extract_products_robust [] [] (fun _ => 0) shortNameHtml,
        5 < p.name.length) :=
  ⟨by decide, by decide⟩

/-- **C3 (amended)** — The real scraper's extraction engine
(`_extract_real_product_data`) never returns a product with name length ≤ 5
or a missing product id or url, for any content, cache and environment: its
final `_is_valid_product` filter enforces the invariant.  (The simple
scraper's JSON stage only enforces length > 3; see the counterexample.) -/
theorem c3_validity_filter_real (env : RealEnv) (c : Cache) (html now : Str) (p : Product)
    (hp : p ∈ (RealTescoScraper.extract_real_product_data env c html now).1) :
    5 < p.name.length ∧ p.product_id ≠ [] ∧ p.url ≠ [] := by
  have hv : RealTescoScraper.is_valid_product p = true := by
    simp only [RealTescoScraper.extract_real_product_data] at hp
    exact List.of_mem_filter hp
  rw [RealTescoScraper.is_valid_product] at hv
  simp only [Bool.and_eq_true, Bool.not_eq_true', decide_eq_true_eq] at hv
  obtain ⟨⟨⟨h1, h2⟩, h3⟩, h4⟩ := hv
  refine ⟨h2, ?_, ?_⟩
  · intro hnil; rw [hnil] at h3; simp at h3
  · intro hnil; rw [hnil] at h4; simp at h4

/-- Witness for C3 (amended): the one product extracted from a single-title
page survives the filter with a 27-character name, the substituted
`unknown_0` product id, and a canonical URL. -/
theorem c3_validity_filter_real_witness :
    5 < ((RealTescoScraper.extract_real_product_data trivialRealEnv [] realTitleHtml
          (strL "t")).1.headD dummyProduct).name.length ∧
    ((RealTescoScraper.extract_real_product_data trivialRealEnv [] realTitleHtml
          (strL "t")).1.headD dummyProduct).product_id ≠ [] ∧
    ((RealTescoScraper.extract_real_product_data trivialRealEnv [] realTitleHtml
          (strL "t")).1.headD dummyProduct).url ≠ [] :=
  c3_validity_filter_real trivialRealEnv [] realTitleHtml (strL "t") _ (by decide)

/-- **C4 counterexample** — A transport failure on the search request is a
total failure (no products extracted), yet `search_tesco_products_simple`
returns a one-element list whose entry carries a `message` key and no
`error` key: a caller inspecting `result[0].error` cannot detect this total
failure. -/
theorem c4_boundary_error_counterexample :
    (SimpleTescoScraper.search_products noNetworkSimpleEnv [] none 5 (strL "t")).1 = [] ∧
    (search_tesco_products_simple noNetworkSimpleEnv [] none (strL "chicken") 5
        (strL "t")).1.length = 1 ∧
    ((search_tesco_products_simple noNetworkSimpleEnv [] none (strL "chicken") 5
        (strL "t")).1.headD (ToolEntry.messageEntry [])).errorField = none :=
  ⟨by decide, by decide, by decide⟩

/-- **C4 (amended)** — Both top-level search tools always return a non-empty
list and never raise past the boundary; on total failure each returns a
one-element list with a human-readable entry — an `error`-keyed entry from
the real tool, but a `message`-keyed entry (not inspectable as
`result[0].error`) from the simple tool. -/
theorem c4_boundary_error_contract :
    (∀ (env : RealEnv) (c : Cache) (searchResp : Option Response) (query : Str)
        (limit : Nat) (now : Str),
      (search_tesco_products_real env c searchResp query limit now).1 ≠ [] ∧
      ((RealTescoScraper.search_products env c searchResp limit now).1 = [] →
        (search_tesco_products_real env c searchResp query limit now).1
          = [ToolEntry.errorEntry
              (strL "No products found for '" ++ query ++ strL "'")])) ∧
    (∀ (env : SimpleEnv) (c : Cache) (searchResp : Option Response) (query : Str)
        (limit : Nat) (now : Str),
      (search_tesco_products_simple env c searchResp query limit now).1 ≠ [] ∧
      ((SimpleTescoScraper.search_products env c searchResp limit now).1 = [] →
        (search_tesco_products_simple env c searchResp query limit now).1
          = [ToolEntry.messageEntry
              (strL "No products found for '" ++ query
                ++ strL "' - search may be temporarily limited")])) := by
  constructor
  · intro env c searchResp query limit now
    constructor
    · unfold search_tesco_products_real
      cases hres : (RealTescoScraper.search_products env c searchResp limit now).1 with
      | nil => simp [hres]
      | cons a l => simp [hres]
    · intro h
      unfold search_tesco_products_real
      simp [h]
  · intro env c searchResp query limit now
    constructor
    · unfold search_tesco_products_simple
      cases hres : (SimpleTescoScraper.search_products env c searchResp limit now).1 with
      | nil => simp [hres]
      | cons a l => simp [hres]
    · intro h
      unfold search_tesco_products_simple
      simp [h]

/-- Witness for C4 (amended): with the network down, the real tool returns
exactly the one-element `error` entry and the simple tool the one-element
`message` entry. -/
theorem c4_boundary_error_contract_witness :
    (RealTescoScraper.search_products trivialRealEnv [] none 5 (strL "t")).1 = [] ∧
    (search_tesco_products_real trivialRealEnv [] none (strL "milk") 5 (strL "t")).1
      = [ToolEntry.errorEntry
          (strL "No products found for '" ++ strL "milk" ++ strL "'")] ∧
    (search_tesco_products_simple noNetworkSimpleEnv [] none (strL "milk") 5 (strL "t")).1
      = [ToolEntry.messageEntry
          (strL "No products found for '" ++ strL "milk"
            ++ strL "' - search may be temporarily limited")] :=
  ⟨by decide,
   (c4_boundary_error_contract.1 trivialRealEnv [] none (strL "milk") 5 (strL "t")).2
     (by decide),
   (c4_boundary_error_contract.2 noNetworkSimpleEnv [] none (strL "milk") 5 (strL "t")).2
     (by decide)⟩

/-- **C8 counterexample** — For an empty title the derived brand is not
`unknown`: the real scraper returns the empty string and the simple scraper
returns `Unknown` (capitalized). -/
theorem c8_brand_default_counterexample :
    RealTescoScraper.extract_brand_from_title [] = [] ∧
    SimpleTescoScraper.extract_brand_from_title [] = strL "Unknown" ∧
    RealTescoScraper.extract_brand_from_title [] ≠ strL "unknown" ∧
    SimpleTescoScraper.extract_brand_from_title [] ≠ strL "unknown" := by
  refine ⟨by decide, by decide, by decide, by decide⟩

/-- **C8 (amended)** — Brand derivation: a title starting with `Tesco`
containing the keyword `Finest` (case-sensitively in the real scraper,
case-insensitively in the simple one) derives `Tesco Finest`, with
`Organic` likewise mapped; a `Tesco`-prefixed title with no keyword derives
`Tesco`; a non-prefixed title derives its first whitespace-delimited token;
and a token-free title defaults to the empty string in the real scraper and
to `Unknown` in the simple scraper — not to `unknown`. -/
theorem c8_brand_derivation (t : Str) :
    (List.isPrefixOf (strL "Tesco") t = true → strContains t (strL "Finest") = true →
      RealTescoScraper.extract_brand_from_title t = strL "Tesco Finest") ∧
    (List.isPrefixOf (strL "Tesco") t = true → strContains t (strL "Finest") = false →
      strContains t (strL "Organic") = true →
      RealTescoScraper.extract_brand_from_title t = strL "Tesco Organic") ∧
    (List.isPrefixOf (strL "Tesco") t = true → strContains t (strL "Finest") = false →
      strContains t (strL "Organic") = false →
      RealTescoScraper.extract_brand_from_title t = strL "Tesco") ∧
    (List.isPrefixOf (strL "Tesco") t = false →
      RealTescoScraper.extract_brand_from_title t = (firstWord t).getD []) ∧
    (List.isPrefixOf (strL "Tesco") t = true →
      strContains (toLowerStr t) (strL "finest") = true →
      SimpleTescoScraper.extract_brand_from_title t = strL "Tesco Finest") ∧
    (List.isPrefixOf (strL "Tesco") t = false →
      SimpleTescoScraper.extract_brand_from_title t = (firstWord t).getD (strL "Unknown")) := by
  refine ⟨fun h1 h2 => ?_, fun h1 h2 h3 => ?_, fun h1 h2 h3 => ?_,
    fun h1 => ?_, fun h1 h2 => ?_, fun h1 => ?_⟩
  · simp [RealTescoScraper.extract_brand_from_title, h1, h2]
  · simp [RealTescoScraper.extract_brand_from_title, h1, h2, h3]
  · simp [RealTescoScraper.extract_brand_from_title, h1, h2, h3]
  · simp only [RealTescoScraper.extract_brand_from_title, h1, Bool.false_eq_true, if_false]
    cases firstWord t <;> rfl
  · simp [SimpleTescoScraper.extract_brand_from_title, h1, h2]
  · simp only [SimpleTescoScraper.extract_brand_from_title, h1, Bool.false_eq_true, if_false]
    cases firstWord t <;> rfl

/-- Witness for C8 (amended) at concrete titles: a `Tesco Finest` title, a
plain `Tesco` title, and a third-party title whose first token is the
brand. -/
theorem c8_brand_derivation_witness :
    RealTescoScraper.extract_brand_from_title (strL "Tesco Finest Free Range Chicken 1Kg")
      = strL "Tesco Finest" ∧
    RealTescoScraper.extract_brand_from_title (strL "Tesco British Chicken Breast 650G")
      = strL "Tesco" ∧
    RealTescoScraper.extract_brand_from_title (strL "Heinz Baked Beans 415G")
      = (firstWord (strL "Heinz Baked Beans 415G")).getD [] ∧
    SimpleTescoScraper.extract_brand_from_title (strL "Tesco finest Beef Mince 500G")
      = strL "Tesco Finest" :=
  ⟨(c8_brand_derivation (strL "Tesco Finest Free Range Chicken 1Kg")).1
     (by decide) (by decide),
   (c8_brand_derivation (strL "Tesco British Chicken Breast 650G")).2.2.1
     (by decide) (by decide) (by decide),
   (c8_brand_derivation (strL "Heinz Baked Beans 415G")).2.2.2.1 (by decide),
   (c8_brand_derivation (strL "Tesco finest Beef Mince 500G")).2.2.2.2.1
     (by decide) (by decide)⟩

/-- **C9 counterexample** — In a real-scraper batch of three cache-missing
products with every detail fetch failing, `_enrich_with_price_data` attempts
three detail-page fetches and keeps going after the first failure: the
claimed universal cap of 2 and abort-after-first-failure do not hold for
this code path. -/
theorem c9_fetch_cap_counterexample :
    (RealTescoScraper.enrich_with_price_data fetchFailRealEnv [] c9Products
        (strL "t")).2.2 = [false, false, false] ∧
    ¬ ((RealTescoScraper.enrich_with_price_data fetchFailRealEnv [] c9Products
        (strL "t")).2.2.length ≤ 2) :=
  ⟨by decide, by decide⟩

theorem dropLast_all_cons_true (t : List Bool)
    (h : t.dropLast.all (fun b => b) = true) :
    (true :: t).dropLast.all (fun b => b) = true := by
  cases t with
  | nil => rfl
  | cons x xs =>
    rw [List.dropLast_cons₂]
    simp only [List.all_cons, h, Bool.and_true]

theorem add_nutrition_aux_trace_length (env : SimpleEnv) (now : Str) :
    ∀ (products : List Product) (c : Cache) (cnt : Nat),
      (SimpleTescoScraper.add_nutrition_aux env now products c cnt).2.2.length
        ≤ 2 - cnt := by
  intro products
  induction products with
  | nil => intro c cnt; simp [SimpleTescoScraper.add_nutrition_aux]
  | cons p rest ih =>
    intro c cnt
    unfold SimpleTescoScraper.add_nutrition_aux
    split
    · simp
    · split
      · exact ih c cnt
      · simp only []
        split
        · exact ih _ cnt
        · split
          · have h1 := ih (SimpleTescoScraper.get_nutrition_ultra_cautious env
              (get_cached_nutrition c p.url).1 p.url p.name now).1 (cnt + 1)
            simp only [List.length_cons]
            omega
          · simp only [List.length_cons, List.length_nil]
            omega

theorem add_nutrition_aux_trace_dropLast (env : SimpleEnv) (now : Str) :
    ∀ (products : List Product) (c : Cache) (cnt : Nat),
      (SimpleTescoScraper.add_nutrition_aux env now products c cnt).2.2.dropLast.all
        (fun b => b) = true := by
  intro products
  induction products with
  | nil => intro c cnt; rfl
  | cons p rest ih =>
    intro c cnt
    unfold SimpleTescoScraper.add_nutrition_aux
    split
    · rfl
    · split
      · exact ih c cnt
      · simp only []
        split
        · exact ih _ cnt
        · split
          · exact dropLast_all_cons_true _ (ih _ (cnt + 1))
          · rfl

/-- **C9 (amended)** — Within every single simple-scraper search batch,
`_add_nutrition_cautiously` attempts at most 2 detail-page (nutrition)
fetches, and only the last attempted fetch can be a failure — the loop
aborts immediately after the first failure, so no fetch follows a failed
one.  (The real scraper's `_enrich_with_price_data` enforces neither bound;
see the counterexample.) -/
theorem c9_nutrition_cap_simple (env : SimpleEnv) (now : Str)
    (products : List Product) (c : Cache) :
    (SimpleTescoScraper.add_nutrition_cautiously env now products c).2.2.length ≤ 2 ∧
    (SimpleTescoScraper.add_nutrition_cautiously env now products c).2.2.dropLast.all
        (fun b => b) = true :=
  ⟨add_nutrition_aux_trace_length env now products c 0,
   add_nutrition_aux_trace_dropLast env now products c 0⟩
